import Mathlib

/-!
Verification of the cassette-player settings-synchronization subsystem.

The definitions below are a shallow embedding of the settings code of the
repository: the Electron main process (settings schema, `loadSettings`,
`saveSettings`, and the IPC handlers `save-settings`, `set-always-on-top`,
`get-always-on-top`, `get-audio-files-from-path`), the renderer
(`saveCurrentSettings`, `restorePlaybackState`), and the experiment script
`experiments/test-fix-race-condition.js` (`handleSaveSettings_FIXED`).

JavaScript objects are modelled as association lists from string keys to
values; `{...a, ...b}` object spread is modelled by `spread`, property
assignment by `alSet`, and property lookup by `alGet`.  JavaScript objects
never carry duplicate keys, and on such inputs these operations agree with
the JavaScript semantics entry for entry, including key order.
-/

namespace Cassette

/-- Scalar JSON values occurring in the settings document: null, booleans,
numbers (modelled as rationals), strings, and arrays of numbers (the
`shuffledPlaylist` field).  JSON serialization round-trips all of these
exactly, so persistence is modelled at the level of these values. -/
inductive Value where
  | vNull : Value
  | vBool : Bool → Value
  | vNum : ℚ → Value
  | vStr : String → Value
  | vNumList : List ℚ → Value
deriving DecidableEq, Repr

/-- A JavaScript object whose properties are scalar values (one settings
domain, e.g. the `audio` object). -/
abbrev Fields := List (String × Value)

/-- A settings document: an object mapping domain names to domain objects,
e.g. `{ audio: {...}, appearance: {...}, window: {...}, playback: {...} }`. -/
abbrev Doc := List (String × Fields)

/-- Property lookup `obj[key]`: the value at the first matching key, or
`none` for a property that is absent (`undefined`). -/
def alGet {α : Type} : List (String × α) → String → Option α
  | [], _ => none
  | (k, v) :: rest, key => if k = key then some v else alGet rest key

/-- Property assignment `obj[key] = v`: overwrite in place if the key is
present, append the new property otherwise. -/
def alSet {α : Type} : List (String × α) → String → α → List (String × α)
  | [], key, v => [(key, v)]
  | (k, w) :: rest, key, v =>
      if k = key then (key, v) :: rest else (k, w) :: alSet rest key v

/-- Object spread `{...a, ...b}`: keys of `a` first (values overridden by
`b` where `b` has the key), then the keys of `b` that are new. -/
def spread {α : Type} (a b : List (String × α)) : List (String × α) :=
  (a.map fun kv => (kv.1, match alGet b kv.1 with | some v => v | none => kv.2)) ++
    b.filter fun kv => (alGet a kv.1).isNone

/-- Reading a domain that may be absent and then spreading it: spreading
`undefined` contributes nothing, which is `[]` here. -/
def domD (doc : Doc) (d : String) : Fields := (alGet doc d).getD []

/-- Value of `doc.window.alwaysOnTop` (or of any domain/field pair). -/
def docField (doc : Doc) (d k : String) : Option Value := alGet (domD doc d) k

/-! ## Settings schema and durable store (main.js) -/

/-- Default `audio` domain from `DEFAULT_SETTINGS` in the main process. -/
def defaultAudio : Fields :=
  [("volume", Value.vNum (mkRat 7 10)), ("tapeHissLevel", Value.vNum (mkRat 3 10)),
   ("wowFlutterLevel", Value.vNum (mkRat 5 10)), ("saturationLevel", Value.vNum (mkRat 4 10)),
   ("lowCutoff", Value.vNum 80), ("highCutoff", Value.vNum 12000),
   ("effectsEnabled", Value.vBool true)]

/-- Default `appearance` domain from `DEFAULT_SETTINGS`. -/
def defaultAppearance : Fields :=
  [("gradientEnabled", Value.vBool false), ("gradientStartColor", Value.vStr "#1a1a2e"),
   ("gradientEndColor", Value.vStr "#2a2a4e"), ("gradientAngle", Value.vNum 180),
   ("backgroundOpacity", Value.vNum 80)]

/-- Default `window` domain from `DEFAULT_SETTINGS`. -/
def defaultWindow : Fields := [("alwaysOnTop", Value.vBool false)]

/-- Default `playback` domain from `DEFAULT_SETTINGS`. -/
def defaultPlayback : Fields :=
  [("folderPath", Value.vNull), ("currentTrackIndex", Value.vNum 0),
   ("shuffleEnabled", Value.vBool false), ("shuffledPlaylist", Value.vNumList [])]

/-- The `DEFAULT_SETTINGS` object of the main process.  Note that it has
exactly the four domains `audio`, `appearance`, `window`, `playback`; there
is no `ui` domain in this schema. -/
def DEFAULT_SETTINGS : Doc :=
  [("audio", defaultAudio), ("appearance", defaultAppearance),
   ("window", defaultWindow), ("playback", defaultPlayback)]

/-- The domain names of the default schema, in order. -/
def knownDomains : List String := ["audio", "appearance", "window", "playback"]

/-- State of the persisted settings file: absent, unreadable-or-malformed
(reading or `JSON.parse` throws), or holding a well-formed document. -/
inductive FileState where
  | absent : FileState
  | malformed : FileState
  | valid : Doc → FileState
deriving DecidableEq, Repr

/-- The merge `loadSettings` performs on a successfully parsed document:
a new object literal with exactly the four known domains, each the spread
of its defaults with the loaded domain (missing loaded domains spread as
nothing). -/
def mergeLoaded (loaded : Doc) : Doc :=
  [("audio", spread defaultAudio (domD loaded "audio")),
   ("appearance", spread defaultAppearance (domD loaded "appearance")),
   ("window", spread defaultWindow (domD loaded "window")),
   ("playback", spread defaultPlayback (domD loaded "playback"))]

/-- `loadSettings()` of the main process: parse-and-merge when the file
holds a document, the full defaults when the file is absent, and — because
the whole body is wrapped in try/catch — the full defaults when reading or
parsing throws.  Totality of this function is the embedding of the fact
that `loadSettings` never throws. -/
def loadSettings : FileState → Doc
  | FileState.absent => DEFAULT_SETTINGS
  | FileState.malformed => DEFAULT_SETTINGS
  | FileState.valid loaded => mergeLoaded loaded

/-- `loadSettings` together with whether `console.error` was reached: the
catch branch (unreadable or malformed file) logs and recovers. -/
def loadSettingsLogged : FileState → Doc × Bool
  | FileState.malformed => (DEFAULT_SETTINGS, true)
  | FileState.absent => (DEFAULT_SETTINGS, false)
  | FileState.valid loaded => (mergeLoaded loaded, false)

/-! ## Main-process state and IPC handlers (main.js) -/

/-- The live `BrowserWindow`: its always-on-top flag and whether it has
been destroyed. -/
structure WindowState where
  alwaysOnTop : Bool
  destroyed : Bool
deriving DecidableEq, Repr

/-- Main-process state relevant to the settings protocol: the `mainWindow`
global (null when no window exists), the `currentSettings` global (null
until loaded), and the persisted settings file. -/
structure MainState where
  mainWindow : Option WindowState
  currentSettings : Option Doc
  file : FileState
deriving DecidableEq, Repr

/-- The `save-settings` IPC handler of the main process:
`currentSettings = settings; saveSettings(settings)` — a whole-document
replacement of the in-memory document, then a write-through of exactly the
received document. -/
def handleSaveSettings (st : MainState) (settings : Doc) : MainState :=
  { st with currentSettings := some settings, file := FileState.valid settings }

/-- The `set-always-on-top` IPC handler of the main process: apply the flag
to the live window when it exists and is not destroyed, then (when
`currentSettings` is loaded) ensure the `window` domain exists, assign
`currentSettings.window.alwaysOnTop = value`, and write through. -/
def handleSetAlwaysOnTop (st : MainState) (value : Bool) : MainState :=
  let st1 :=
    match st.mainWindow with
    | some w =>
        if w.destroyed then st
        else { st with mainWindow := some { w with alwaysOnTop := value } }
    | none => st
  match st1.currentSettings with
  | some cs =>
      let cs1 :=
        match alGet cs "window" with
        | some _ => cs
        | none => alSet cs "window" defaultWindow
      let cs2 := alSet cs1 "window" (alSet (domD cs1 "window") "alwaysOnTop" (Value.vBool value))
      { st1 with currentSettings := some cs2, file := FileState.valid cs2 }
  | none => st1

/-- The `get-always-on-top` IPC handler (identical in both main.js
variants): return `mainWindow.isAlwaysOnTop()` when the window object
exists, and `false` otherwise. -/
def handleGetAlwaysOnTop (st : MainState) : Bool :=
  match st.mainWindow with
  | some w => w.alwaysOnTop
  | none => false

/-- The repaired `save-settings` handler `handleSaveSettings_FIXED` from
`experiments/test-fix-race-condition.js` (also shown as the final fix in
the issue-34 case study): merge the incoming snapshot field-by-field into
the current document domain-wise, but take the `window` domain only from
`currentSettings`, discarding the snapshot copy. -/
def handleSaveSettingsFixed (st : MainState) (settings : Doc) : MainState :=
  let c : Doc := st.currentSettings.getD []
  let merged : Doc :=
    [("audio", spread (domD c "audio") (domD settings "audio")),
     ("appearance", spread (domD c "appearance") (domD settings "appearance")),
     ("window", domD c "window"),
     ("ui", spread (domD c "ui") (domD settings "ui")),
     ("playback", spread (domD c "playback") (domD settings "playback"))]
  { st with currentSettings := some merged, file := FileState.valid merged }

/-! ## Ownership model (spec section 4.1 and 6) -/

/-- The two writer roles of the protocol. -/
inductive Role where
  | controlAuthority : Role
  | presentationPeer : Role
deriving DecidableEq, Repr

/-- The ownership table of the spec: `window` is owned by the Control
Authority (the main process); every other domain by the Presentation Peer
(the renderer). -/
def ownershipTable (d : String) : Role :=
  if d = "window" then Role.controlAuthority else Role.presentationPeer

/-- Modelled from the spec: `ApplySnapshot(snapshotDoc, sourceRole)` — for
each domain of the snapshot, accept the submitted value when the ownership
table assigns the domain to the sender, otherwise discard it and retain
the current authoritative value.  This is the operation the spec claims
the `save-settings` handler implements; it is compared against the code
above. -/
def applySnapshotSpec (current snapshot : Doc) (sourceRole : Role) : Doc :=
  snapshot.foldl
    (fun acc entry =>
      if ownershipTable entry.1 = sourceRole then alSet acc entry.1 entry.2 else acc)
    current

/-! ## Renderer model (src/renderer.js) -/

/-- One enumerated audio file as produced by the main process
(`getAudioFilesFromFolder`): display name, file name, full path. -/
structure Track where
  name : String
  fullName : String
  path : String
deriving DecidableEq, Repr

/-- The renderer `audioState` fields touched by the restore workflow.  The
track index is an integer because it is read back from the persisted JSON
document, which may hold any number. -/
structure AudioState where
  folderPath : Option String
  audioFiles : List Track
  currentTrackIndex : Int
deriving DecidableEq, Repr

/-- The persisted `playback` domain as consumed by `restorePlaybackState`:
`folderPath` (nullable) and `currentTrackIndex` (possibly absent). -/
structure PlaybackSettings where
  folderPath : Option String
  currentTrackIndex : Option Int
deriving DecidableEq, Repr

/-- Outcome of `restorePlaybackState`: the audio state afterwards, the text
written to the cassette screen and the status bar (if reached), and
whether the surrounding catch logged an error. -/
structure RestoreResult where
  state : AudioState
  screenText : Option String
  statusBar : Option String
  errorLogged : Bool
deriving DecidableEq, Repr

/-- The `get-audio-files-from-path` IPC handler of the main process:
`null` when the saved folder no longer exists (or enumeration throws,
folded into the same flag here), otherwise the folder path and the
enumerated audio files. -/
def handleGetAudioFilesFromPath (folderReadable : Bool) (enumerated : List Track)
    (folderPath : String) : Option (String × List Track) :=
  if folderReadable then some (folderPath, enumerated) else none

/-- `restorePlaybackState(playbackSettings)` of the renderer, with the
awaited IPC result as an explicit argument.  The body is wrapped in
try/catch; the only statement that can throw is `track.name` when
`audioFiles[trackIndex]` is `undefined`, which happens exactly when the
index is still out of range after the `trackIndex >= length` reset (i.e.
when it is negative).  `playbackSettings.currentTrackIndex || 0` maps an
absent index to 0 and keeps any present integer (0 maps to 0 either way). -/
def restorePlaybackState (st : AudioState) (ps : PlaybackSettings)
    (ipcResult : Option (String × List Track)) : RestoreResult :=
  match ps.folderPath with
  | none => { state := st, screenText := none, statusBar := none, errorLogged := false }
  | some fp =>
    match ipcResult with
    | none => { state := st, screenText := none, statusBar := none, errorLogged := false }
    | some (_, files) =>
      if files.length = 0 then
        { state := st, screenText := none, statusBar := none, errorLogged := false }
      else
        let st1 : AudioState := { st with folderPath := some fp, audioFiles := files }
        let idx0 : Int := (ps.currentTrackIndex).getD 0
        let idx : Int := if idx0 ≥ (files.length : Int) then 0 else idx0
        let st2 : AudioState := { st1 with currentTrackIndex := idx }
        if h : 0 ≤ idx ∧ idx < (files.length : Int) then
          let track := files.get ⟨idx.toNat, by omega⟩
          { state := st2, screenText := some track.name,
            statusBar := some ("Restored: " ++ toString files.length ++ " tracks"),
            errorLogged := false }
        else
          { state := st2, screenText := none, statusBar := none, errorLogged := true }

/-- The renderer `CONFIG` fields that `saveCurrentSettings` reads. -/
structure RendererConfig where
  volume : ℚ
  tapeHissLevel : ℚ
  wowFlutterLevel : ℚ
  saturationLevel : ℚ
  lowCutoff : ℚ
  highCutoff : ℚ
  effectsEnabled : Bool
  gradientEnabled : Bool
  gradientStartColor : String
  gradientEndColor : String
  gradientAngle : ℚ
  backgroundOpacity : ℚ
deriving DecidableEq, Repr

/-- A nullable string as a JSON value (`audioState.folderPath`). -/
def pathValue : Option String → Value
  | none => Value.vNull
  | some s => Value.vStr s

/-- The settings object built by `saveCurrentSettings` in src/renderer.js
and sent over the `save-settings` channel: exactly the literal with the
three domains `audio`, `appearance` and `playback`. -/
def buildSnapshot (cfg : RendererConfig) (ast : AudioState) : Doc :=
  [("audio",
     [("volume", Value.vNum cfg.volume), ("tapeHissLevel", Value.vNum cfg.tapeHissLevel),
      ("wowFlutterLevel", Value.vNum cfg.wowFlutterLevel),
      ("saturationLevel", Value.vNum cfg.saturationLevel),
      ("lowCutoff", Value.vNum cfg.lowCutoff), ("highCutoff", Value.vNum cfg.highCutoff),
      ("effectsEnabled", Value.vBool cfg.effectsEnabled)]),
   ("appearance",
     [("gradientEnabled", Value.vBool cfg.gradientEnabled),
      ("gradientStartColor", Value.vStr cfg.gradientStartColor),
      ("gradientEndColor", Value.vStr cfg.gradientEndColor),
      ("gradientAngle", Value.vNum cfg.gradientAngle),
      ("backgroundOpacity", Value.vNum cfg.backgroundOpacity)]),
   ("playback",
     [("folderPath", pathValue ast.folderPath),
      ("currentTrackIndex", Value.vNum (ast.currentTrackIndex : ℚ))])]

/-! ## File-write mechanics of the durable store (saveSettings) -/

/-- File-system operations at the granularity relevant to crash
atomicity: writing a serialized document to a path, and renaming. -/
inductive FsOp where
  | writeFile : String → Doc → FsOp
  | renameFile : String → String → FsOp
deriving DecidableEq, Repr

/-- The settings file path (`SETTINGS_FILE`). -/
def SETTINGS_FILE : String := "settings.json"

/-- The operations performed by `saveSettings(settings)`: a single
`fs.writeFileSync(SETTINGS_FILE, JSON.stringify(settings, null, 2))`
directly on the target file.  There is no temporary file and no rename. -/
def saveSettingsOps (doc : Doc) : List FsOp := [FsOp.writeFile SETTINGS_FILE doc]

/-- Modelled from the spec: the commit mechanism the spec prescribes —
write the serialized document to a temporary location, then rename it over
the target. -/
def atomicCommitOpsSpec (doc : Doc) : List FsOp :=
  [FsOp.writeFile (SETTINGS_FILE ++ ".tmp") doc,
   FsOp.renameFile (SETTINGS_FILE ++ ".tmp") SETTINGS_FILE]

/-- A directory: the state of each path that has been touched (absent when
not listed). -/
abbrev Disk := List (String × FileState)

/-- State of a path on the disk. -/
def diskGet (d : Disk) (p : String) : FileState := (alGet d p).getD FileState.absent

/-- Applying one completed file-system operation.  Renaming a missing
source leaves the disk unchanged. -/
def applyOp (d : Disk) : FsOp → Disk
  | FsOp.writeFile p doc => alSet d p (FileState.valid doc)
  | FsOp.renameFile src dst =>
      match diskGet d src with
      | FileState.absent => d
      | fsSrc => alSet (alSet d dst fsSrc) src FileState.absent

/-- Disk state when the process crashes while executing operation number
`i` of the list: the preceding operations completed; an interrupted write
leaves the target truncated, i.e. unparsable (a strict prefix of a
serialized JSON object is never valid JSON); a rename is atomic at the
file-system level, so an interrupted rename leaves the old state.  When
`i` is past the end of the list, every operation completed. -/
def crashDuring (d : Disk) : List FsOp → Nat → Disk
  | [], _ => d
  | op :: _, 0 =>
      match op with
      | FsOp.writeFile p _ => alSet d p FileState.malformed
      | FsOp.renameFile _ _ => d
  | op :: rest, Nat.succ i => crashDuring (applyOp d op) rest i

/-! ## Concrete fixtures and claim-level predicates -/

/-- A snapshot as composed by the renderer in the race scenario: the peer
domains are current, while the `window` domain carries the stale value
`false` obtained from a `get-always-on-top` query answered before the
concurrent owner write. -/
def staleSnapshot : Doc :=
  [("audio", [("volume", Value.vNum (mkRat 5 10))]),
   ("appearance", [("gradientEnabled", Value.vBool false)]),
   ("window", [("alwaysOnTop", Value.vBool false)]),
   ("playback", [("folderPath", Value.vNull), ("currentTrackIndex", Value.vNum 0)])]

/-- Main-process state right after startup: live window not on top, the
default document loaded and persisted. -/
def initialMainState : MainState :=
  { mainWindow := some { alwaysOnTop := false, destroyed := false },
    currentSettings := some DEFAULT_SETTINGS,
    file := FileState.valid DEFAULT_SETTINGS }

/-- The default document with the owner-written value `window.alwaysOnTop
= true`. -/
def windowTrueDoc : Doc :=
  [("audio", defaultAudio), ("appearance", defaultAppearance),
   ("window", [("alwaysOnTop", Value.vBool true)]), ("playback", defaultPlayback)]

/-- Main-process state in which the owner has already accepted
`window.alwaysOnTop = true`. -/
def windowTrueState : MainState :=
  { mainWindow := some { alwaysOnTop := true, destroyed := false },
    currentSettings := some windowTrueDoc,
    file := FileState.valid windowTrueDoc }

/-- A persisted document from another schema version: the known `audio`
domain misses most fields and carries an unknown extra field, and there is
an entire domain (`ui`) that the default schema of this main process does
not have. -/
def uiExtraDoc : Doc :=
  [("audio", [("volume", Value.vNum (mkRat 9 10)), ("bassBoost", Value.vBool true)]),
   ("ui", [("showControlsHint", Value.vBool true)])]

/-- A previously committed document whose window flag is `true` (used to
exhibit what a crashed commit destroys). -/
def oldCommittedDoc : Doc := [("window", [("alwaysOnTop", Value.vBool true)])]

/-- Three enumerated tracks. -/
def tracks3 : List Track :=
  [{ name := "a", fullName := "a.mp3", path := "/music/a.mp3" },
   { name := "b", fullName := "b.mp3", path := "/music/b.mp3" },
   { name := "c", fullName := "c.mp3", path := "/music/c.mp3" }]

/-- Renderer audio state at startup, before any restore. -/
def audioState0 : AudioState := { folderPath := none, audioFiles := [], currentTrackIndex := 0 }

/-- Main-process state with no window object but an always-on-top value of
`true` both in memory and on disk. -/
def noWindowState : MainState :=
  { mainWindow := none,
    currentSettings := some windowTrueDoc,
    file := FileState.valid windowTrueDoc }

/-- One domain of a document is fully populated when it is present and
carries every field of the given default domain object. -/
def domainFull (doc : Doc) (d : String) (dflt : Fields) : Bool :=
  match alGet doc d with
  | some fs => dflt.all fun kv => (alGet fs kv.1).isSome
  | none => false

/-- A document is fully populated (in the sense of the round-trip claim)
when every schema domain is present with every schema field, and it has no
domains outside the schema. -/
def fullyPopulated (doc : Doc) : Bool :=
  domainFull doc "audio" defaultAudio && domainFull doc "appearance" defaultAppearance &&
    domainFull doc "window" defaultWindow && domainFull doc "playback" defaultPlayback &&
    doc.all fun dd => knownDomains.contains dd.1

/-- Two documents are equal as JSON data: the same domains are present and
every domain/field lookup agrees. -/
def docEquiv (x y : Doc) : Prop :=
  (∀ d, (alGet x d).isSome = (alGet y d).isSome) ∧
    (∀ d k, docField x d k = docField y d k)

/-- A successful playback restore into the enumerated `files`: the track
index ends up in range, folder and files are taken over, the screen was
updated, and no error was caught. -/
def restoredInRange (r : RestoreResult) (fp : String) (files : List Track) : Prop :=
  0 ≤ r.state.currentTrackIndex ∧ r.state.currentTrackIndex < files.length ∧
    r.state.folderPath = some fp ∧ r.state.audioFiles = files ∧
    r.screenText.isSome = true ∧ r.errorLogged = false

/-! ## General association-list lemmas -/

section AssocLemmas

variable {α : Type}

theorem alGet_append (x y : List (String × α)) (k : String) :
    alGet (x ++ y) k =
      match alGet x k with
      | some v => some v
      | none => alGet y k := by
  induction x with
  | nil => simp [alGet]
  | cons hd tl ih =>
      obtain ⟨k0, v0⟩ := hd
      by_cases h : k0 = k <;> simp [alGet, h, ih]

theorem alGet_map_update (a : List (String × α)) (g : String → α → α) (k : String) :
    alGet (a.map fun kv => (kv.1, g kv.1 kv.2)) k = (alGet a k).map (g k) := by
  induction a with
  | nil => simp [alGet]
  | cons hd tl ih =>
      obtain ⟨k0, v0⟩ := hd
      by_cases h : k0 = k
      · subst h; simp [alGet]
      · simp [alGet, h, ih]

theorem alGet_filter_key (b : List (String × α)) (q : String → Bool) (k : String) :
    alGet (b.filter fun kv => q kv.1) k = if q k then alGet b k else none := by
  induction b with
  | nil => simp [alGet]
  | cons hd tl ih =>
      obtain ⟨k0, v0⟩ := hd
      by_cases hq : q k0
      · by_cases h : k0 = k
        · subst h; simp [alGet, hq]
        · simp [alGet, hq, h, ih]
      · by_cases h : k0 = k
        · subst h
          simp only [List.filter_cons, hq]
          simp only [Bool.false_eq_true, if_false] at hq ⊢
          simp [ih, hq]
        · simp [alGet, hq, h, ih]

theorem alGet_spread (a b : List (String × α)) (k : String) :
    alGet (spread a b) k =
      match alGet b k with
      | some v => some v
      | none => alGet a k := by
  unfold spread
  rw [alGet_append]
  rw [alGet_map_update a (fun key v => match alGet b key with | some w => w | none => v) k]
  rw [alGet_filter_key b (fun key => (alGet a key).isNone) k]
  cases ha : alGet a k <;> cases hb : alGet b k <;> simp [ha, hb]

theorem alGet_alSet (a : List (String × α)) (key : String) (v : α) (q : String) :
    alGet (alSet a key v) q = if key = q then some v else alGet a q := by
  induction a with
  | nil => simp [alSet, alGet]
  | cons hd tl ih =>
      obtain ⟨k0, w⟩ := hd
      by_cases h : k0 = key
      · subst h
        by_cases hq : k0 = q <;> simp [alSet, alGet, hq]
      · by_cases hq : k0 = q
        · subst hq
          have : ¬ key = k0 := fun he => h he.symm
          simp [alSet, alGet, h, this]
        · simp [alSet, alGet, h, hq, ih]

/-- If every key of `a` is present in `fs`, a key absent from `fs` is also
absent from `a`. -/
theorem alGet_none_of_all_in (a fs : List (String × α)) (k : String)
    (hall : (a.all fun kv => (alGet fs kv.1).isSome) = true)
    (hnone : alGet fs k = none) : alGet a k = none := by
  induction a with
  | nil => simp [alGet]
  | cons hd tl ih =>
      obtain ⟨k0, v0⟩ := hd
      simp only [List.all_cons, Bool.and_eq_true] at hall
      by_cases h : k0 = k
      · subst h
        rw [hnone] at hall
        simp at hall
      · simp [alGet, h, ih hall.2]

end AssocLemmas

/-! ## Lemmas about the load-merge -/

/-- Membership in the four known domains, spelled out. -/
theorem mem_knownDomains (d : String) (hd : d ∈ knownDomains) :
    d = "audio" ∨ d = "appearance" ∨ d = "window" ∨ d = "playback" := by
  simpa [knownDomains] using hd

/-- Field lookup in the document produced by the load merge, for a known
domain: the loaded value when present, the default value otherwise. -/
theorem docField_mergeLoaded (loaded : Doc) (d : String) (hd : d ∈ knownDomains)
    (k : String) :
    docField (mergeLoaded loaded) d k =
      match docField loaded d k with
      | some v => some v
      | none => docField DEFAULT_SETTINGS d k := by
  rcases mem_knownDomains d hd with rfl | rfl | rfl | rfl
  · unfold docField
    show alGet (spread defaultAudio (domD loaded "audio")) k = _
    rw [alGet_spread]
    cases alGet (domD loaded "audio") k <;> rfl
  · unfold docField
    show alGet (spread defaultAppearance (domD loaded "appearance")) k = _
    rw [alGet_spread]
    cases alGet (domD loaded "appearance") k <;> rfl
  · unfold docField
    show alGet (spread defaultWindow (domD loaded "window")) k = _
    rw [alGet_spread]
    cases alGet (domD loaded "window") k <;> rfl
  · unfold docField
    show alGet (spread defaultPlayback (domD loaded "playback")) k = _
    rw [alGet_spread]
    cases alGet (domD loaded "playback") k <;> rfl

/-- The load merge produces no domain outside the four known ones. -/
theorem alGet_mergeLoaded_unknown (loaded : Doc) (d : String)
    (hd : ¬ d ∈ knownDomains) : alGet (mergeLoaded loaded) d = none := by
  have h4 : ¬ d = "audio" ∧ ¬ d = "appearance" ∧ ¬ d = "window" ∧ ¬ d = "playback" := by
    simpa [knownDomains] using hd
  obtain ⟨h1, h2, h3, h5⟩ := h4
  have g1 : "audio" ≠ d := fun he => h1 he.symm
  have g2 : "appearance" ≠ d := fun he => h2 he.symm
  have g3 : "window" ≠ d := fun he => h3 he.symm
  have g4 : "playback" ≠ d := fun he => h5 he.symm
  simp [mergeLoaded, alGet, g1, g2, g3, g4]

/-- A fully populated domain is present and contains all default keys. -/
theorem domainFull_defaults_absent (doc : Doc) (d : String) (dflt : Fields)
    (h : domainFull doc d dflt = true) :
    ∃ fs, alGet doc d = some fs ∧ ∀ k, alGet fs k = none → alGet dflt k = none := by
  unfold domainFull at h
  cases hd : alGet doc d with
  | none => rw [hd] at h; simp at h
  | some fs =>
      rw [hd] at h
      exact ⟨fs, rfl, fun k hk => alGet_none_of_all_in dflt fs k h hk⟩

/-- A document whose domains are all known has no unknown domain. -/
theorem alGet_none_of_domains_known (doc : Doc) (d : String)
    (hall : (doc.all fun dd => knownDomains.contains dd.1) = true)
    (hd : ¬ d ∈ knownDomains) : alGet doc d = none := by
  induction doc with
  | nil => rfl
  | cons hd0 tl ih =>
      obtain ⟨d0, fs0⟩ := hd0
      simp only [List.all_cons, Bool.and_eq_true] at hall
      by_cases he : d0 = d
      · subst he
        exact absurd (by simpa using hall.1) hd
      · simp [alGet, he, ih hall.2]

/-- Unpacking `fullyPopulated`: each known domain is present with all of
its default fields (restated through `docField` on the defaults). -/
theorem fullyPopulated_domain (doc : Doc) (h : fullyPopulated doc = true) (d : String)
    (hd : d ∈ knownDomains) :
    ∃ fs, alGet doc d = some fs ∧
      ∀ k, alGet fs k = none → docField DEFAULT_SETTINGS d k = none := by
  unfold fullyPopulated at h
  simp only [Bool.and_eq_true] at h
  obtain ⟨⟨⟨⟨hau, hap⟩, hw⟩, hp⟩, _⟩ := h
  rcases mem_knownDomains d hd with rfl | rfl | rfl | rfl
  · obtain ⟨fs, h1, h2⟩ := domainFull_defaults_absent doc "audio" defaultAudio hau
    exact ⟨fs, h1, fun k hk => h2 k hk⟩
  · obtain ⟨fs, h1, h2⟩ := domainFull_defaults_absent doc "appearance" defaultAppearance hap
    exact ⟨fs, h1, fun k hk => h2 k hk⟩
  · obtain ⟨fs, h1, h2⟩ := domainFull_defaults_absent doc "window" defaultWindow hw
    exact ⟨fs, h1, fun k hk => h2 k hk⟩
  · obtain ⟨fs, h1, h2⟩ := domainFull_defaults_absent doc "playback" defaultPlayback hp
    exact ⟨fs, h1, fun k hk => h2 k hk⟩

/-- Unpacking `fullyPopulated`: all domains of the document are known. -/
theorem fullyPopulated_known (doc : Doc) (h : fullyPopulated doc = true) :
    (doc.all fun dd => knownDomains.contains dd.1) = true := by
  unfold fullyPopulated at h
  simp only [Bool.and_eq_true] at h
  exact h.2

/-! ## Claim theorems -/

/-- C1: against the shipped `save-settings` handler the no-regression
property fails: in the interleaving where the owner write
`set-always-on-top(true)` is processed first and the peer snapshot with the
stale `window.alwaysOnTop = false` second, the final window value is the
stale `false`, not the owner value `true` (first conjunct).  The reverse
interleaving happens to end at `true` (second conjunct), and the repaired
handler from the repository's own experiment script preserves the owner
value in both interleavings (last two conjuncts), which is the behaviour
the claim describes. -/
theorem C1_raceRegression :
    docField (((handleSaveSettings (handleSetAlwaysOnTop initialMainState true)
        staleSnapshot).currentSettings).getD []) "window" "alwaysOnTop" =
      some (Value.vBool false) ∧
    docField (((handleSetAlwaysOnTop (handleSaveSettings initialMainState staleSnapshot)
        true).currentSettings).getD []) "window" "alwaysOnTop" =
      some (Value.vBool true) ∧
    docField (((handleSaveSettingsFixed (handleSetAlwaysOnTop initialMainState true)
        staleSnapshot).currentSettings).getD []) "window" "alwaysOnTop" =
      some (Value.vBool true) ∧
    docField (((handleSetAlwaysOnTop (handleSaveSettingsFixed initialMainState staleSnapshot)
        true).currentSettings).getD []) "window" "alwaysOnTop" =
      some (Value.vBool true) := by
  decide

/-- C2: the shipped `save-settings` handler is not ownership-filtering:
from a state whose authoritative `window.alwaysOnTop` is `true`, applying a
peer snapshot carrying stale `window.alwaysOnTop = false` overwrites the
window domain (first conjunct), whereas the spec operation
`ApplySnapshot(snapshot, PresentationPeer)` retains the authoritative
window value (second conjunct) while accepting the peer-owned `audio`
value (third conjunct); the repaired experiment handler agrees with the
spec on the window domain (fourth conjunct). -/
theorem C2_noOwnershipFiltering :
    docField (((handleSaveSettings windowTrueState staleSnapshot).currentSettings).getD [])
        "window" "alwaysOnTop" = some (Value.vBool false) ∧
    docField (applySnapshotSpec windowTrueDoc staleSnapshot Role.presentationPeer)
        "window" "alwaysOnTop" = some (Value.vBool true) ∧
    docField (applySnapshotSpec windowTrueDoc staleSnapshot Role.presentationPeer)
        "audio" "volume" = some (Value.vNum (mkRat 5 10)) ∧
    docField (((handleSaveSettingsFixed windowTrueState staleSnapshot).currentSettings).getD [])
        "window" "alwaysOnTop" = some (Value.vBool true) := by
  decide

/-- C3 counterexample: an entire unknown domain is not preserved by
`loadSettings`: the persisted document carries a `ui` domain, which the
default schema does not have, and the loaded document has no `ui` domain
at all — so it cannot be written back by the next commit either. -/
theorem C3_unknownDomainDropped :
    alGet uiExtraDoc "ui" = some [("showControlsHint", Value.vBool true)] ∧
    alGet (loadSettings (FileState.valid uiExtraDoc)) "ui" = none := by
  decide

/-- C6: the `save-settings` handler is idempotent: delivering the same
snapshot twice in a row leaves exactly the state produced by delivering it
once (both the in-memory document and the persisted file). -/
theorem C6_saveSettingsIdempotent (st : MainState) (settings : Doc) :
    handleSaveSettings (handleSaveSettings st settings) settings =
      handleSaveSettings st settings := rfl

/-- C7: on an unreadable or malformed settings file, `loadSettings`
returns the full default document and the catch branch logs the error;
the embedding is a total function, reflecting that the try/catch never
lets the error escape to fail startup. -/
theorem C7_malformedLoadDefaults :
    loadSettingsLogged FileState.malformed = (DEFAULT_SETTINGS, true) := rfl

/-- C9: the `get-always-on-top` handler answers `false` whenever the main
window object does not exist, whatever the in-memory or persisted
settings say. -/
theorem C9_noWindowFalse (st : MainState) (h : st.mainWindow = none) :
    handleGetAlwaysOnTop st = false := by
  unfold handleGetAlwaysOnTop
  rw [h]

/-- Witness for C9 at a concrete state whose in-memory and persisted
window flag are both `true`. -/
theorem C9_noWindowFalse_witness : handleGetAlwaysOnTop noWindowState = false :=
  C9_noWindowFalse noWindowState rfl

/-- C10: the snapshot built by `saveCurrentSettings` in src/renderer.js
has exactly the domains `audio`, `appearance`, `playback`, never a
`window` or `ui` domain, and after the whole-document replacement done by
the `save-settings` handler the in-memory document therefore has no
`window` domain any more. -/
theorem C10_snapshotDomains (cfg : RendererConfig) (ast : AudioState) (st : MainState) :
    (buildSnapshot cfg ast).map Prod.fst = ["audio", "appearance", "playback"] ∧
    alGet (buildSnapshot cfg ast) "window" = none ∧
    alGet (buildSnapshot cfg ast) "ui" = none ∧
    alGet (((handleSaveSettings st (buildSnapshot cfg ast)).currentSettings).getD [])
      "window" = none := by
  refine ⟨rfl, ?_, ?_, ?_⟩ <;> rfl

/-- C3 (amended): for every persisted document, `loadSettings` yields, on
each of the four known domains, the loaded value for every field present
(including unknown extra fields, which are thus preserved and written back
by the next commit of the loaded document) and the default value for every
missing field; but every domain outside the default schema is dropped. -/
theorem C3_loadMergeAmended (loaded : Doc) :
    (∀ d, d ∈ knownDomains → ∀ k,
      docField (loadSettings (FileState.valid loaded)) d k =
        match docField loaded d k with
        | some v => some v
        | none => docField DEFAULT_SETTINGS d k) ∧
    (∀ d, ¬ d ∈ knownDomains → alGet (loadSettings (FileState.valid loaded)) d = none) := by
  constructor
  · intro d hd k
    exact docField_mergeLoaded loaded d hd k
  · intro d hd
    exact alGet_mergeLoaded_unknown loaded d hd

/-- Witness for the amended C3: the unknown extra field `bassBoost` inside
the known `audio` domain survives the load, while the whole unknown `ui`
domain is dropped. -/
theorem C3_loadMergeAmended_witness :
    docField (loadSettings (FileState.valid uiExtraDoc)) "audio" "bassBoost" =
      (match docField uiExtraDoc "audio" "bassBoost" with
       | some v => some v
       | none => docField DEFAULT_SETTINGS "audio" "bassBoost") ∧
    alGet (loadSettings (FileState.valid uiExtraDoc)) "ui" = none :=
  ⟨(C3_loadMergeAmended uiExtraDoc).1 "audio" (by decide) "bassBoost",
   (C3_loadMergeAmended uiExtraDoc).2 "ui" (by decide)⟩

/-- C4 counterexample: `saveSettings` is a single direct
`fs.writeFileSync` on the target file — there is no temporary file and no
rename — and a crash during that write leaves the settings file truncated
(malformed), observable by the next load, which then falls back to the
defaults and loses the previously committed window flag. -/
theorem C4_crashTruncates :
    saveSettingsOps DEFAULT_SETTINGS = [FsOp.writeFile SETTINGS_FILE DEFAULT_SETTINGS] ∧
    diskGet (crashDuring [(SETTINGS_FILE, FileState.valid oldCommittedDoc)]
        (saveSettingsOps DEFAULT_SETTINGS) 0) SETTINGS_FILE = FileState.malformed ∧
    loadSettings FileState.malformed = DEFAULT_SETTINGS ∧
    loadSettings (FileState.valid oldCommittedDoc) ≠ loadSettings FileState.malformed := by
  decide

/-- C4 (amended): the commit is a single direct write to the settings
file, so a crash mid-write can leave the file malformed (the next load
then recovers with the defaults); the temp-and-rename sequence the spec
prescribes, by contrast, leaves the file at either the old or the new
document at every crash point. -/
theorem C4_directWriteAmended (doc dOld : Doc) (i : Nat) :
    saveSettingsOps doc = [FsOp.writeFile SETTINGS_FILE doc] ∧
    diskGet (crashDuring [(SETTINGS_FILE, FileState.valid dOld)] (saveSettingsOps doc) 0)
        SETTINGS_FILE = FileState.malformed ∧
    (diskGet (crashDuring [(SETTINGS_FILE, FileState.valid dOld)] (atomicCommitOpsSpec doc) i)
        SETTINGS_FILE = FileState.valid dOld ∨
      diskGet (crashDuring [(SETTINGS_FILE, FileState.valid dOld)] (atomicCommitOpsSpec doc) i)
        SETTINGS_FILE = FileState.valid doc) := by
  refine ⟨rfl, rfl, ?_⟩
  rcases i with _ | i
  · left; rfl
  · rcases i with _ | i
    · left; rfl
    · right; rfl

/-- C5: the round trip holds — committing a fully populated document and
loading it back yields a document with the same domains and the same value
at every domain/field lookup. -/
theorem C5_roundTrip (doc : Doc) (h : fullyPopulated doc = true) :
    docEquiv (loadSettings (FileState.valid doc)) doc := by
  have hknown := fullyPopulated_known doc h
  constructor
  · intro d
    by_cases hd : d ∈ knownDomains
    · obtain ⟨fs, hfs, _⟩ := fullyPopulated_domain doc h d hd
      rw [hfs]
      rcases mem_knownDomains d hd with rfl | rfl | rfl | rfl <;> rfl
    · rw [show loadSettings (FileState.valid doc) = mergeLoaded doc from rfl,
        alGet_mergeLoaded_unknown doc d hd, alGet_none_of_domains_known doc d hknown hd]
  · intro d k
    by_cases hd : d ∈ knownDomains
    · rw [show loadSettings (FileState.valid doc) = mergeLoaded doc from rfl,
        docField_mergeLoaded doc d hd k]
      obtain ⟨fs, hfs, hdflt⟩ := fullyPopulated_domain doc h d hd
      cases hv : docField doc d k with
      | some v => rfl
      | none =>
          have hfk : alGet fs k = none := by
            unfold docField domD at hv
            rw [hfs] at hv
            simpa using hv
          exact hdflt k hfk
    · have h1 := alGet_mergeLoaded_unknown doc d hd
      have h2 := alGet_none_of_domains_known doc d hknown hd
      unfold docField domD
      rw [show loadSettings (FileState.valid doc) = mergeLoaded doc from rfl, h1, h2]

/-- Witness for C5: the default document itself is fully populated and
survives the round trip. -/
theorem C5_roundTrip_witness :
    fullyPopulated DEFAULT_SETTINGS = true ∧
    docEquiv (loadSettings (FileState.valid DEFAULT_SETTINGS)) DEFAULT_SETTINGS :=
  ⟨by decide, C5_roundTrip DEFAULT_SETTINGS (by decide)⟩

/-- C8 counterexample: a persisted negative track index (out of range for
the three enumerated files) is not brought back into range — the code only
resets indices at or above the playlist length, so the restored state
keeps the out-of-range index `-1`, the screen update throws, and the catch
logs the error. -/
theorem C8_negativeIndexNotClamped :
    (restorePlaybackState audioState0
        { folderPath := some "/music", currentTrackIndex := some (-1) }
        (handleGetAudioFilesFromPath true tracks3 "/music")).state.currentTrackIndex = -1 ∧
    ¬ 0 ≤ (restorePlaybackState audioState0
        { folderPath := some "/music", currentTrackIndex := some (-1) }
        (handleGetAudioFilesFromPath true tracks3 "/music")).state.currentTrackIndex ∧
    (restorePlaybackState audioState0
        { folderPath := some "/music", currentTrackIndex := some (-1) }
        (handleGetAudioFilesFromPath true tracks3 "/music")).errorLogged = true := by
  decide

/-- C8 (amended): when the saved folder is gone the whole playback restore
is skipped without error; when the folder exists with a non-empty playlist
and the saved index is non-negative, the restore completes with an
in-range index (indices at or above the playlist length are reset to 0),
the folder and files taken over, the screen updated, and no error; a
negative saved index, however, is kept out of range (see the
counterexample).  In every case the function returns instead of aborting. -/
theorem C8_restoreDegradesOnlyField (st : AudioState) (fp : String)
    (files : List Track) (idx : Int) :
    restorePlaybackState st { folderPath := some fp, currentTrackIndex := some idx }
        (handleGetAudioFilesFromPath false files fp) =
      { state := st, screenText := none, statusBar := none, errorLogged := false } ∧
    (0 < files.length → 0 ≤ idx →
      restoredInRange
        (restorePlaybackState st { folderPath := some fp, currentTrackIndex := some idx }
          (handleGetAudioFilesFromPath true files fp)) fp files) := by
  constructor
  · rfl
  · intro hlen hidx
    have hne : ¬ files.length = 0 := by omega
    unfold restorePlaybackState handleGetAudioFilesFromPath restoredInRange
    simp only [if_true, Option.getD_some, ge_iff_le, if_neg hne]
    split_ifs with h1 h2 h3
    · refine ⟨?_, ?_, rfl, rfl, rfl, rfl⟩
      · show (0 : Int) ≤ (0 : Int)
        omega
      · show (0 : Int) < (files.length : Int)
        omega
    · exact absurd ⟨by omega, by omega⟩ h2
    · refine ⟨?_, ?_, rfl, rfl, rfl, rfl⟩
      · show (0 : Int) ≤ idx
        omega
      · show idx < (files.length : Int)
        omega
    · exact absurd ⟨by omega, by omega⟩ h3

/-- Witness for the amended C8 at a missing folder and at a too-large
saved index (5 with three files, reset to 0). -/
theorem C8_restoreDegradesOnlyField_witness :
    restorePlaybackState audioState0
        { folderPath := some "/music", currentTrackIndex := some 5 }
        (handleGetAudioFilesFromPath false tracks3 "/music") =
      { state := audioState0, screenText := none, statusBar := none, errorLogged := false } ∧
    restoredInRange
      (restorePlaybackState audioState0
        { folderPath := some "/music", currentTrackIndex := some 5 }
        (handleGetAudioFilesFromPath true tracks3 "/music")) "/music" tracks3 :=
  ⟨(C8_restoreDegradesOnlyField audioState0 "/music" tracks3 5).1,
   (C8_restoreDegradesOnlyField audioState0 "/music" tracks3 5).2 (by decide) (by decide)⟩

end Cassette
